import Mathlib

/-!
Shallow embedding of the core of `src/nox.c` (a minimal 2D Lua game engine):
the fixed-capacity audio voice pool with its mixer callback, the sample store,
the image/texture graph with render-target binding, and the LZ4-frame
compress/decompress wrappers.  Machine `int`/`float` state is modelled with
`Int`/`ℚ`; the Lua registry reference `LUA_NOREF` is modelled as `none`;
fallible Lua API entry points return `Except String`.  Reference releases
(`luaL_unref` on a held reference) are reported explicitly as a list of the
released references, so that exactly-once-release claims can be stated.
-/

/-- AUDIO_VOICES from nox.c: the voice pool has 32 slots. -/
def AUDIO_VOICES : Nat := 32

/-- Decidable equality for `Except` results, used to evaluate the embedded
API calls on concrete states. -/
instance {e a : Type} [DecidableEq e] [DecidableEq a] : DecidableEq (Except e a)
  | .error u, .error v =>
    if h : u = v then .isTrue (congrArg Except.error h)
    else .isFalse fun hc => h (by cases hc; rfl)
  | .error _, .ok _ => .isFalse fun hc => Except.noConfusion hc
  | .ok _, .error _ => .isFalse fun hc => Except.noConfusion hc
  | .ok u, .ok v =>
    if h : u = v then .isTrue (congrArg Except.ok h)
    else .isFalse fun hc => h (by cases hc; rfl)

/-- Embeds `sample_t`: decoded PCM data (none once freed/destroyed), sample
rate `freq`, `length`, `channels`.  Sample objects are identified by their
index in `AudioState.samples` (standing for the `sample_t *` pointer). -/
structure sample_t where
  data : Option (List Int)
  freq : ℚ
  length : Nat
  channels : Nat
deriving DecidableEq, Repr

instance : Inhabited sample_t := ⟨⟨none, 0, 0, 0⟩⟩

/-- Embeds `voice_t`: `sample` is the referenced sample's id (the
`sample_t *` pointer, `none` = NULL), `sample_ref` the held Lua registry
reference (`none` = LUA_NOREF). -/
structure voice_t where
  sample : Option Nat
  sample_ref : Option Nat
  position : ℚ
  gain : ℚ
  pitch : ℚ
  pan : ℚ
  looping : Bool
deriving DecidableEq, Repr

instance : Inhabited voice_t := ⟨⟨none, none, 0, 0, 0, 0, false⟩⟩

/-- The audio-side global state: `audio_voices` and the store of all sample
userdata objects (index = identity). -/
structure AudioState where
  voices : List voice_t
  samples : List sample_t
deriving DecidableEq, Repr

/-- Embeds the C macro `clamp(x, min, max) = maximum(minimum(x, max), min)`
at rational type. -/
def clampQ (x lo hi : ℚ) : ℚ := max (min x hi) lo

/-- A slot is free for `play_sample` iff `sample == NULL && sample_ref == LUA_NOREF`. -/
def isFreeVoice (v : voice_t) : Bool := v.sample.isNone && v.sample_ref.isNone

/-- Embeds `stop_voice`: clears the slot's sample pointer (under the audio
lock) and releases the held registry reference.  The returned list holds the
reference that `luaL_unref` actually released (`luaL_unref` on LUA_NOREF is
a no-op, releasing nothing). -/
def stop_voice (v : voice_t) : voice_t × List Nat :=
  ({ v with sample := none, sample_ref := none },
   match v.sample_ref with
   | some r => [r]
   | none => [])

/-- Per-slot body of `purge_voices`: a slot whose sample was asynchronously
cleared by the audio thread but whose reference is still held is stopped. -/
def purge_voice (v : voice_t) : voice_t × List Nat :=
  if v.sample = none ∧ v.sample_ref ≠ none then stop_voice v else (v, [])

/-- Iterated `purge_voice` on one slot, accumulating all released references. -/
def purgeN : Nat → voice_t → voice_t × List Nat
  | 0, v => (v, [])
  | n + 1, v =>
    let p := purge_voice v
    let q := purgeN n p.1
    (q.1, p.2 ++ q.2)

/-- The audio thread's natural end-of-sample action on a non-looping voice in
`mix_audio_voices`: `voice->sample = NULL;` only — the reference is untouched. -/
def audio_clear_voice (v : voice_t) : voice_t := { v with sample := none }

/-- Per-slot body of `stop_sample`: stop the voice iff it references this sample. -/
def stop_sample_voice (sid : Nat) (v : voice_t) : voice_t × List Nat :=
  if v.sample = some sid then stop_voice v else (v, [])

/-- Maps a per-slot action over the voice list, concatenating the released
references (the C loops over `audio_voices`). -/
def mapVoices (f : voice_t → voice_t × List Nat) : List voice_t → List voice_t × List Nat
  | [] => ([], [])
  | v :: vs =>
    let p := f v
    let q := mapVoices f vs
    (p.1 :: q.1, p.2 ++ q.2)

/-- Embeds `stop_sample`: under the lock, stops every voice whose sample
pointer equals this sample. -/
def stop_sample (sid : Nat) (st : AudioState) : AudioState × List Nat :=
  let p := mapVoices (stop_sample_voice sid) st.voices
  ({ st with voices := p.1 }, p.2)

/-- Embeds `purge_voices`: stops every slot with a cleared sample but a still
held reference. -/
def purge_voices (st : AudioState) : AudioState × List Nat :=
  let p := mapVoices purge_voice st.voices
  ({ st with voices := p.1 }, p.2)

/-- Embeds `f_nox_audio_destroy_sample`: if the sample still has data, stop
every referencing voice, free the PCM buffer (`data := none`) and mark it
invalid; otherwise a no-op. -/
def f_nox_audio_destroy_sample (sid : Nat) (st : AudioState) : AudioState × List Nat :=
  let smp := st.samples.getD sid default
  if smp.data.isSome then
    let p := stop_sample sid st
    ({ p.1 with samples := p.1.samples.set sid { smp with data := none } }, p.2)
  else (st, [])

/-- Embeds `check_sample`: fails unless the sample's `data` is non-null. -/
def check_sample (sid : Nat) (st : AudioState) : Except String sample_t :=
  let smp := st.samples.getD sid default
  if smp.data.isSome then .ok smp else .error "attempt to operate on destroyed sample"

/-- Embeds `f_nox_audio_is_sample_valid`: plain boolean, no validity check. -/
def f_nox_audio_is_sample_valid (sid : Nat) (st : AudioState) : Bool :=
  (st.samples.getD sid default).data.isSome

/-- Embeds `f_nox_audio_is_voice_playing`: `check_voice` bounds the 1-based
index to [1, 32], then reports `sample != NULL`. -/
def f_nox_audio_is_voice_playing (n : Nat) (st : AudioState) : Except String Bool :=
  if 1 ≤ n ∧ n ≤ AUDIO_VOICES then
    .ok (st.voices.getD (n - 1) default).sample.isSome
  else .error "invalid voice index"

/-- Embeds `f_nox_audio_stop_voice`: `check_voice`, then `stop_voice` on that
slot.  Returns the call result, the new state and the released references. -/
def f_nox_audio_stop_voice (n : Nat) (st : AudioState) :
    Except String Unit × AudioState × List Nat :=
  if 1 ≤ n ∧ n ≤ AUDIO_VOICES then
    let p := stop_voice (st.voices.getD (n - 1) default)
    (.ok (), { st with voices := st.voices.set (n - 1) p.1 }, p.2)
  else (.error "invalid voice index", st, [])

/-- Embeds `f_nox_audio_is_sample_playing`: `check_sample`, then scans the
voice pool for a slot whose sample pointer equals this sample. -/
def f_nox_audio_is_sample_playing (sid : Nat) (st : AudioState) : Except String Bool :=
  match check_sample sid st with
  | .error e => .error e
  | .ok _ => .ok (st.voices.any fun v => v.sample == some sid)

/-- Embeds `f_nox_audio_get_sample_length`: frames/rate for mono,
(frames/2)/rate for stereo, error otherwise. -/
def f_nox_audio_get_sample_length (sid : Nat) (st : AudioState) : Except String ℚ :=
  match check_sample sid st with
  | .error e => .error e
  | .ok smp =>
    if smp.channels = 1 then .ok ((smp.length : ℚ) / smp.freq)
    else if smp.channels = 2 then .ok ((smp.length : ℚ) / 2 / smp.freq)
    else .error "invalid number of channels"

/-- Embeds `f_nox_audio_stop_sample`: `check_sample`, then `stop_sample`. -/
def f_nox_audio_stop_sample (sid : Nat) (st : AudioState) :
    Except String Unit × AudioState × List Nat :=
  match check_sample sid st with
  | .error e => (.error e, st, [])
  | .ok _ =>
    let p := stop_sample sid st
    (.ok (), p.1, p.2)

/-- The voice slot contents written by a successful `f_nox_audio_play_sample`:
position reset, parameters clamped, a keep-alive reference taken on the
sample, and the sample pointer published. -/
def playedVoice (sid : Nat) (gain pitch pan : ℚ) (looping : Bool) : voice_t :=
  { sample := some sid
    sample_ref := some sid
    position := 0
    gain := clampQ gain 0 1
    pitch := clampQ pitch (1/2) 2
    pan := clampQ pan (-1) 1
    looping := looping }

/-- Embeds `f_nox_audio_play_sample`: `check_sample`, then a first-fit scan
(`List.findIdx`) for a slot with no sample and no held reference; writes that
slot and returns its 1-based id, or fails with "no free audio voice" leaving
the state untouched. -/
def f_nox_audio_play_sample (sid : Nat) (gain pitch pan : ℚ) (looping : Bool)
    (st : AudioState) : Except String Nat × AudioState :=
  match check_sample sid st with
  | .error e => (.error e, st)
  | .ok _ =>
    let k := st.voices.findIdx isFreeVoice
    if k < st.voices.length then
      (.ok (k + 1), { st with voices := st.voices.set k (playedVoice sid gain pitch pan looping) })
    else (.error "no free audio voice", st)

/-- One output frame of `mix_audio_voices` for a single voice slot, with
`smp` the `sample_t` object the slot's pointer refers to and `af` the device
rate `audio_freq`.  `pos = (Uint32)voice->position` (truncation; positions are
non-negative here).  Returns the list of PCM data indices read this frame and
the updated slot: mixing at `pos` and advancing when `pos < length` (indices
`pos` or `pos, pos+1` by channel count), else wrap-to-0 when looping, else
clear the sample pointer. -/
def mix_step (af : ℚ) (smp : sample_t) (v : voice_t) : List Nat × voice_t :=
  if v.sample.isSome then
    let pos := (⌊v.position⌋).toNat
    if pos < smp.length then
      if smp.channels = 1 then
        ([pos], { v with position := v.position + smp.freq / af * v.pitch })
      else
        ([pos, pos + 1], { v with position := v.position + smp.freq / af * (v.pitch * 2) })
    else if v.looping then ([], { v with position := 0 })
    else ([], { v with sample := none })
  else ([], v)

/-- Iterates `mix_step` over `n` successive output frames, collecting all PCM
indices read in order. -/
def mix_run (af : ℚ) (smp : sample_t) : Nat → voice_t → List Nat × voice_t
  | 0, v => ([], v)
  | n + 1, v =>
    let p := mix_step af smp v
    let q := mix_run af smp n p.2
    (p.1 ++ q.1, q.2)

/-- Embeds `SDL_Rect` (C ints as `Int`). -/
structure SDL_Rect where
  x : Int
  y : Int
  w : Int
  h : Int
deriving DecidableEq, Repr

/-- Embeds `image_t`: `root` is the id (index in `VideoState.images`) of the
image reached through the `root` pointer (itself for a root image), `texture`
the native texture id (`none` = NULL: child or destroyed), `rect` the
sub-rectangle in root-texture coordinates. -/
structure image_t where
  root : Nat
  texture : Option Nat
  rect : SDL_Rect
deriving DecidableEq, Repr

instance : Inhabited image_t := ⟨⟨0, none, ⟨0, 0, 0, 0⟩⟩⟩

/-- The video-side global state: all image userdata objects (index =
identity), the bound render target (`render_target` is the bound `SDL_Texture`,
`render_target_ref` the registry reference pinning the bound image), and the
set of textures already passed to `SDL_DestroyTexture`. -/
structure VideoState where
  images : List image_t
  render_target : Option Nat
  render_target_ref : Option Nat
  freed : List Nat
deriving DecidableEq, Repr

/-- Embeds `check_image`: fails unless `self->root->texture != NULL`. -/
def check_image (iid : Nat) (st : VideoState) : Except String image_t :=
  if (st.images.getD (st.images.getD iid default).root default).texture.isSome
  then .ok (st.images.getD iid default)
  else .error "attempt to operate on destroyed image"

/-- Embeds `reset_render_target`: releases the binding's registry reference,
rebinds the default (screen) surface, and clears both globals. -/
def reset_render_target (st : VideoState) : VideoState :=
  { st with render_target := none, render_target_ref := none }

/-- The render target dangles when it is bound to an already-freed texture. -/
def danglingTarget (st : VideoState) : Bool :=
  match st.render_target with
  | some t => st.freed.contains t
  | none => false

/-- Embeds `f_nox_video_destroy_image`: if the image still owns a texture,
first reset the render target when it is bound to that texture, then free the
texture and null the field; otherwise a no-op. -/
def f_nox_video_destroy_image (iid : Nat) (st : VideoState) : VideoState :=
  match (st.images.getD iid default).texture with
  | some t =>
    { (if st.render_target = some t then reset_render_target st else st) with
      images := st.images.set iid { st.images.getD iid default with texture := none }
      freed := t :: st.freed }
  | none => st

/-- Embeds the C macro `minimum` at `Int`. -/
def minimumI (a b : Int) : Int := if a < b then a else b

/-- Embeds the C macro `maximum` at `Int`. -/
def maximumI (a b : Int) : Int := if a > b then a else b

/-- Embeds the C macro `clamp` at `Int`. -/
def clampI (x lo hi : Int) : Int := maximumI (minimumI x hi) lo

/-- The child rectangle computed by `f_nox_video_create_child_image` from the
parent's rectangle and the requested geometry. -/
def childRect (parent : SDL_Rect) (x y w h : Int) : SDL_Rect :=
  let x := maximumI 0 (x + parent.x)
  let y := maximumI 0 (y + parent.y)
  { x := clampI x 0 (parent.w - 1)
    y := clampI y 0 (parent.h - 1)
    w := clampI w 0 (parent.w - x)
    h := clampI h 0 (parent.h - y) }

/-- Rectangle containment: `inner` lies inside `outer` (empty rectangles at an
in-range origin count as contained). -/
def rectContained (inner outer : SDL_Rect) : Prop :=
  outer.x ≤ inner.x ∧ inner.x + inner.w ≤ outer.x + outer.w ∧
  outer.y ≤ inner.y ∧ inner.y + inner.h ≤ outer.y + outer.h

instance (inner outer : SDL_Rect) : Decidable (rectContained inner outer) := by
  unfold rectContained
  infer_instance

/-- Embeds `f_nox_video_create_child_image`: `check_image` on the parent, then
a new image object whose `root` pointer is set to the PARENT itself
(`new->root = self`), no texture of its own, and the clipped rectangle; the
parent is kept alive through the uservalue.  Returns the new image's id. -/
def f_nox_video_create_child_image (iid : Nat) (x y w h : Int) (st : VideoState) :
    Except String Nat × VideoState :=
  match check_image iid st with
  | .error e => (.error e, st)
  | .ok img =>
    let child : image_t := { root := iid, texture := none, rect := childRect img.rect x y w h }
    (.ok st.images.length, { st with images := st.images ++ [child] })

/-- Embeds `f_nox_video_is_image_valid`: plain boolean
`self->root->texture != NULL`, no validity check. -/
def f_nox_video_is_image_valid (iid : Nat) (st : VideoState) : Bool :=
  (st.images.getD (st.images.getD iid default).root default).texture.isSome

/-- Embeds `f_nox_video_is_child_image`: `check_image`, then `root != self`. -/
def f_nox_video_is_child_image (iid : Nat) (st : VideoState) : Except String Bool :=
  match check_image iid st with
  | .error e => .error e
  | .ok img => .ok (decide (img.root ≠ iid))

/-- Embeds `f_nox_video_get_image_size`: `check_image`, then the rectangle's
width and height. -/
def f_nox_video_get_image_size (iid : Nat) (st : VideoState) : Except String (Int × Int) :=
  match check_image iid st with
  | .error e => .error e
  | .ok img => .ok (img.rect.w, img.rect.h)

/-- Embeds `f_nox_video_draw_image`: `check_image`, then blits the image's
sub-rectangle of the root texture at native size (the successful SDL backend
calls are modelled as no-ops; their failures are fatal, out of this model). -/
def f_nox_video_draw_image (iid : Nat) (x y : Int) (st : VideoState) :
    Except String (SDL_Rect × SDL_Rect) :=
  match check_image iid st with
  | .error e => .error e
  | .ok img => .ok (img.rect, { x := x, y := y, w := img.rect.w, h := img.rect.h })

/-- Embeds `f_nox_video_set_render_target`: nil resets to the default target;
otherwise `check_image`, reject child images, reset the previous binding, then
bind this image's texture and pin the image. -/
def f_nox_video_set_render_target (arg : Option Nat) (st : VideoState) :
    Except String Unit × VideoState :=
  match arg with
  | none => (.ok (), reset_render_target st)
  | some iid =>
    match check_image iid st with
    | .error e => (.error e, st)
    | .ok img =>
      if img.root ≠ iid then (.error "cannot use child images as render target", st)
      else
        let st1 := reset_render_target st
        (.ok (), { st1 with render_target := img.texture, render_target_ref := some iid })

/-- Size of the stack chunk buffer `char data[1024 * 64]` in
`f_nox_math_decompress`. -/
def LZ4F_CHUNK : Nat := 1024 * 64

/-- Modelled from the spec: the host-supplied stateless compression primitive
(`LZ4F_compressFrame` of the vendored LZ4 library, not part of this
repository's source).  The spec treats it as an external stateless collaborator
whose only contract is losslessness, so the model stores the payload verbatim
inside a frame: a 4-byte magic header followed by the payload bytes.  Bytes are
`Nat`s. -/
def LZ4F_compressFrame (src : List Nat) : List Nat :=
  [4, 34, 77, 24] ++ src

/-- Modelled from the spec: frame parsing done inside the external
`LZ4F_decompress`: recognise the magic header and recover the payload, failing
on a malformed frame. -/
def LZ4F_parseFrame (src : List Nat) : Option (List Nat) :=
  if src.take 4 = [4, 34, 77, 24] then some (src.drop 4) else none

/-- The decompression loop of `f_nox_math_decompress`, with the external
`LZ4F_decompress` calls modelled from the spec: each call is given the whole
remaining input and a 64 KiB output buffer, writes `dst_size = min(64K,
remaining payload)` decoded bytes, and returns hint 0 once the frame's end mark
has been consumed (here: once no payload remains).  The loop faithfully keeps
the source's control flow: the `dst_size == 0` error check runs BEFORE the
`lz_hint == 0` loop exit.  The C loop is unbounded (`for (;;)`); the fuel
argument only bounds the recursion and, at `payload.length + 1`, is never
exhausted, since every continuing iteration consumes at least one byte. -/
def decompressLoop : Nat → List Nat → List Nat → Except String (List Nat)
  | 0, _, _ => .error "LZ4F_decompress() looped without progress"
  | fuel + 1, rem, acc =>
    if (rem.take LZ4F_CHUNK).length = 0 then .error "LZ4F_decompress() returned no output"
    else if (rem.drop LZ4F_CHUNK).length = 0 then .ok (acc ++ rem.take LZ4F_CHUNK)
    else decompressLoop fuel (rem.drop LZ4F_CHUNK) (acc ++ rem.take LZ4F_CHUNK)

/-- Embeds `f_nox_math_compress`: builds one LZ4 frame from the whole input. -/
def f_nox_math_compress (src : List Nat) : List Nat :=
  LZ4F_compressFrame src

/-- Embeds `f_nox_math_decompress`: create a decompression context, then run
the chunked decompression loop over the input frame. -/
def f_nox_math_decompress (src : List Nat) : Except String (List Nat) :=
  match LZ4F_parseFrame src with
  | none => .error "LZ4F_decompress() failed"
  | some payload => decompressLoop (payload.length + 1) payload []


/-- A mono test sample: 3 PCM frames at rate 3. -/
def sampleMono : sample_t := { data := some [100, -100, 50], freq := 3, length := 3, channels := 1 }

/-- A destroyed test sample (data already freed). -/
def sampleDead : sample_t := { data := none, freq := 3, length := 3, channels := 1 }

/-- A voice slot playing `sampleMono` (sample id 0) with a held reference. -/
def voicePlaying : voice_t :=
  { sample := some 0, sample_ref := some 0, position := 0, gain := 1, pitch := 1, pan := 0,
    looping := false }

/-- Concrete audio state: slot 1 playing sample 0, the other 31 slots free. -/
def stateA : AudioState :=
  { voices := voicePlaying :: List.replicate 31 default, samples := [sampleMono] }

/-- Concrete audio state: all 32 slots free, one live sample. -/
def stateFree : AudioState :=
  { voices := List.replicate 32 default, samples := [sampleMono] }

/-- Concrete audio state: all 32 slots free, one destroyed sample. -/
def stateDead : AudioState :=
  { voices := List.replicate 32 default, samples := [sampleDead] }

/-- A root test image: owns texture 0, rectangle 15x15 at the origin. -/
def imgRoot : image_t := { root := 0, texture := some 0, rect := ⟨0, 0, 15, 15⟩ }

/-- A child test image of `imgRoot` (image id 0): the rectangle produced by
`create_child(root, 10, 0, 5, 5)`. -/
def imgChild : image_t := { root := 0, texture := none, rect := ⟨10, 0, 5, 5⟩ }

/-- A destroyed root test image. -/
def imgDead : image_t := { root := 0, texture := none, rect := ⟨0, 0, 8, 8⟩ }

/-- Concrete video state: one root image, nothing bound. -/
def vstateRoot : VideoState :=
  { images := [imgRoot], render_target := none, render_target_ref := none, freed := [] }

/-- Concrete video state: the root image 0 and its child image 1, nothing bound. -/
def vstateChild : VideoState :=
  { images := [imgRoot, imgChild], render_target := none, render_target_ref := none, freed := [] }

/-- Concrete video state: root image 0 bound as the render target. -/
def vstateBound : VideoState :=
  { images := [imgRoot], render_target := some 0, render_target_ref := some 0, freed := [] }

/-- Concrete video state: one destroyed root image. -/
def vstateDead : VideoState :=
  { images := [imgDead], render_target := none, render_target_ref := none, freed := [7] }

/-- Helper: a list whose filtering by `p` is shorter than itself has an
element not satisfying `p`. -/
theorem exists_not_of_filter_length_lt {α} (p : α → Bool) :
    ∀ l : List α, (l.filter p).length < l.length → ∃ x ∈ l, ¬ p x := by
  intro l
  induction l with
  | nil => intro h; simp at h
  | cons a t ih =>
    intro h
    by_cases hpa : p a
    · simp only [List.filter_cons, hpa, if_pos, List.length_cons] at h
      obtain ⟨x, hx, hpx⟩ := ih (by omega)
      exact ⟨x, List.mem_cons_of_mem a hx, hpx⟩
    · exact ⟨a, List.mem_cons_self a t, hpa⟩

/-- C7: `stop(voice)` is idempotent for every voice index in [1,32]: the first
call succeeds, leaves the slot's sample cleared, its reference released and
`is_voice_playing` false; a second call in succession succeeds, leaves the
state identical to the first call's, and releases no additional reference. -/
theorem stop_voice_idempotent (n : Nat) (st : AudioState)
    (h1 : 1 ≤ n) (h2 : n ≤ AUDIO_VOICES) (h32 : st.voices.length = AUDIO_VOICES) :
    (f_nox_audio_stop_voice n st).1 = .ok () ∧
    (f_nox_audio_stop_voice n (f_nox_audio_stop_voice n st).2.1).1 = .ok () ∧
    (f_nox_audio_stop_voice n (f_nox_audio_stop_voice n st).2.1).2.1
      = (f_nox_audio_stop_voice n st).2.1 ∧
    (f_nox_audio_stop_voice n (f_nox_audio_stop_voice n st).2.1).2.2 = [] ∧
    f_nox_audio_is_voice_playing n (f_nox_audio_stop_voice n st).2.1 = .ok false ∧
    ((f_nox_audio_stop_voice n st).2.1.voices.getD (n - 1) default).sample = none ∧
    ((f_nox_audio_stop_voice n st).2.1.voices.getD (n - 1) default).sample_ref = none := by
  have hlt : n - 1 < st.voices.length := by
    rw [h32]; unfold AUDIO_VOICES at h2 ⊢; omega
  simp only [f_nox_audio_stop_voice, f_nox_audio_is_voice_playing, if_pos (And.intro h1 h2)]
  refine ⟨by trivial, by trivial, ?_, ?_, ?_, ?_, ?_⟩ <;>
    simp only [List.getD_eq_getElem?_getD, List.getElem?_set_eq_of_lt _ hlt,
      Option.getD_some, stop_voice, List.set_set, Option.isSome_none]

/-- Witness for C7: stopping slot 1 of the concrete playing state twice. -/
theorem stop_voice_idempotent_witness :
    (f_nox_audio_stop_voice 1 (f_nox_audio_stop_voice 1 stateA).2.1).2.1
      = (f_nox_audio_stop_voice 1 stateA).2.1 ∧
    (f_nox_audio_stop_voice 1 (f_nox_audio_stop_voice 1 stateA).2.1).2.2 = [] :=
  ⟨(stop_voice_idempotent 1 stateA (by decide) (by decide) (by decide)).2.2.1,
   (stop_voice_idempotent 1 stateA (by decide) (by decide) (by decide)).2.2.2.1⟩

/-- Helper: `purge_voice` ignores a slot whose sample pointer is still set. -/
theorem purge_voice_of_sample_some (v : voice_t) (h : v.sample.isSome) :
    purge_voice v = (v, []) := by
  unfold purge_voice
  rw [if_neg]
  intro hc
  rw [hc.1] at h
  simp at h

/-- Helper: `purge_voice` ignores a slot whose reference is already released. -/
theorem purge_voice_of_ref_none (v : voice_t) (h : v.sample_ref = none) :
    purge_voice v = (v, []) := by
  unfold purge_voice
  rw [if_neg]
  intro hc
  exact hc.2 h

/-- Helper: iterating `purge_voice` from a fixed point changes nothing and
releases nothing. -/
theorem purgeN_fixed (v : voice_t) (h : purge_voice v = (v, [])) :
    ∀ n, purgeN n v = (v, []) := by
  intro n
  induction n with
  | zero => rfl
  | succ m ih => simp only [purgeN, h, ih, List.append_nil]

/-- C6: for a non-looping voice holding sample `s` with reference `r`, running
`purge` (its per-slot body, applied to this slot by every `purge_voices` pass)
any number of times `a` before the audio thread's asynchronous clearing is a
no-op releasing nothing, and any number of times `b ≥ 1` after the clearing
releases exactly the one held reference `[r]` — no leak, no double release —
after which the slot is fully free and a further purge does not touch it. -/
theorem purge_releases_exactly_once (v : voice_t) (s r a b : Nat)
    (hs : v.sample = some s) (hr : v.sample_ref = some r) (hb : 1 ≤ b) :
    purgeN a v = (v, []) ∧
    (purgeN b (audio_clear_voice v)).2 = [r] ∧
    (purgeN b (audio_clear_voice v)).1.sample = none ∧
    (purgeN b (audio_clear_voice v)).1.sample_ref = none ∧
    purge_voice (purgeN b (audio_clear_voice v)).1
      = ((purgeN b (audio_clear_voice v)).1, []) := by
  have h1 : purgeN a v = (v, []) :=
    purgeN_fixed v (purge_voice_of_sample_some v (by rw [hs]; rfl)) a
  have hclear : purge_voice (audio_clear_voice v)
      = ({ v with sample := none, sample_ref := none }, [r]) := by
    unfold purge_voice audio_clear_voice stop_voice
    rw [if_pos]
    · simp [hr]
    · simp [hr]
  obtain ⟨b', rfl⟩ : ∃ b', b = b' + 1 := ⟨b - 1, by omega⟩
  have hrest : purgeN b' { v with sample := none, sample_ref := none }
      = ({ v with sample := none, sample_ref := none }, []) :=
    purgeN_fixed _ (purge_voice_of_ref_none _ rfl) b'
  have hmain : purgeN (b' + 1) (audio_clear_voice v)
      = ({ v with sample := none, sample_ref := none }, [r]) := by
    simp only [purgeN, hclear, hrest, List.append_nil]
  refine ⟨h1, ?_, ?_, ?_, ?_⟩ <;> rw [hmain]
  exact purge_voice_of_ref_none _ rfl

/-- Witness for C6: the concrete playing voice, two purges before and three
after the audio thread clears it. -/
theorem purge_releases_exactly_once_witness :
    purgeN 2 voicePlaying = (voicePlaying, []) ∧
    (purgeN 3 (audio_clear_voice voicePlaying)).2 = [0] :=
  ⟨(purge_releases_exactly_once voicePlaying 0 0 2 3 (by decide) (by decide) (by decide)).1,
   (purge_releases_exactly_once voicePlaying 0 0 2 3 (by decide) (by decide) (by decide)).2.1⟩

/-- C4: evaluation of the compress/decompress round trip at the failing input.
On the EMPTY byte string the first `LZ4F_decompress` call consumes the whole
frame and outputs zero bytes with hint 0, and the loop's `dst_size == 0` check
(which runs before the `lz_hint == 0` exit) misfires, so
`decompress(compress(""))` returns the error "LZ4F_decompress() returned no
output" instead of "" — contradicting the claimed round-trip identity, which
does hold on non-empty inputs. -/
theorem decompress_compress_roundtrip_eval :
    f_nox_math_decompress (f_nox_math_compress [])
      = .error "LZ4F_decompress() returned no output" ∧
    f_nox_math_decompress (f_nox_math_compress [1, 2, 3]) = .ok [1, 2, 3] ∧
    f_nox_math_decompress (f_nox_math_compress [0, 255, 7, 7, 9]) = .ok [0, 255, 7, 7, 9] := by
  refine ⟨rfl, rfl, rfl⟩

/-- Helper: a slot-referenced mono voice at integer position `j`, playing at
device rate with pitch 1, reads frames `j, j+1, ...` one per output frame. -/
theorem mix_run_steps (af : ℚ) (smp : sample_t) (v : voice_t)
    (hs : v.sample.isSome) (hch : smp.channels = 1) (hfr : smp.freq = af) (haf : af ≠ 0)
    (hp : v.pitch = 1) :
    ∀ k j : Nat, j + k ≤ smp.length →
      mix_run af smp k { v with position := (j : ℚ) }
        = (List.range' j k, { v with position := ((j + k : Nat) : ℚ) }) := by
  intro k
  induction k with
  | zero => intro j hj; simp [mix_run, List.range']
  | succ m ih =>
    intro j hj
    have hstep : mix_step af smp { v with position := (j : ℚ) }
        = ([j], { v with position := ((j + 1 : Nat) : ℚ) }) := by
      unfold mix_step
      rw [if_pos hs]
      have hfl : (⌊((j : ℚ))⌋).toNat = j := by simp
      rw [hfl, if_pos (by omega : j < smp.length), if_pos hch]
      have : (j : ℚ) + smp.freq / af * v.pitch = ((j + 1 : Nat) : ℚ) := by
        rw [hfr, hp, div_self haf]
        push_cast
        ring
      simp [this]
    have hrest := ih (j + 1) (by omega)
    simp only [mix_run, hstep, hrest]
    have h1 : [j] ++ List.range' (j + 1) m = List.range' j (m + 1) := by
      rw [List.range'_succ]
      rfl
    have h2 : j + 1 + m = j + (m + 1) := by omega
    rw [h1, h2]

/-- Helper: an `n+1`-frame mixer run is the `n`-frame run followed by one more
`mix_step` on its final state. -/
theorem mix_run_succ_back (af : ℚ) (smp : sample_t) :
    ∀ (n : Nat) (v : voice_t),
      mix_run af smp (n + 1) v
        = ((mix_run af smp n v).1 ++ (mix_step af smp (mix_run af smp n v).2).1,
           (mix_step af smp (mix_run af smp n v).2).2) := by
  intro n
  induction n with
  | zero => intro v; simp [mix_run]
  | succ m ih =>
    intro v
    have hL : mix_run af smp (m + 1 + 1) v
        = ((mix_step af smp v).1 ++ (mix_run af smp (m + 1) (mix_step af smp v).2).1,
           (mix_run af smp (m + 1) (mix_step af smp v).2).2) := by
      simp only [mix_run]
    have hR : mix_run af smp (m + 1) v
        = ((mix_step af smp v).1 ++ (mix_run af smp m (mix_step af smp v).2).1,
           (mix_run af smp m (mix_step af smp v).2).2) := by
      simp only [mix_run]
    rw [hL, hR, ih (mix_step af smp v).2]
    simp [List.append_assoc]

/-- C5: any looping voice `w` with a live sample whose truncated playback
position has reached the sample's length is set by the mixer callback to
position EXACTLY 0, reading nothing that frame.  Moreover a looping mono voice
playing `smp` at the device rate with pitch 1 from position 0 reads, over
`length` output frames, exactly the frame indices `0, ..., length-1` in order
(each exactly once — no skip, no repeat); its truncated position then equals
`length`, and the run over `length+1` frames crosses the wrap boundary,
still reads exactly `0, ..., length-1`, and ends at position 0 with the
sample still attached, so the loop repeats identically. -/
theorem looping_voice_wraps_to_zero (af : ℚ) (smp : sample_t) (v w : voice_t) (s : Nat)
    (hs : v.sample = some s) (hch : smp.channels = 1) (hfr : smp.freq = af)
    (haf : af ≠ 0) (hp : v.pitch = 1) (hpos : v.position = 0) (hloop : v.looping = true)
    (hws : w.sample.isSome) (hwl : w.looping = true)
    (hwpos : smp.length ≤ (⌊w.position⌋).toNat) :
    mix_step af smp w = ([], { w with position := 0 }) ∧
    (mix_run af smp smp.length v).1 = List.range smp.length ∧
    (mix_run af smp smp.length v).2.position = (smp.length : ℚ) ∧
    mix_step af smp (mix_run af smp smp.length v).2
      = ([], { (mix_run af smp smp.length v).2 with position := 0 }) ∧
    (mix_run af smp (smp.length + 1) v).1 = List.range smp.length ∧
    (mix_run af smp (smp.length + 1) v).2.position = 0 ∧
    (mix_run af smp (smp.length + 1) v).2.sample = some s := by
  have hwstep : mix_step af smp w = ([], { w with position := 0 }) := by
    unfold mix_step
    rw [if_pos hws, if_neg (by omega : ¬ (⌊w.position⌋).toNat < smp.length), if_pos hwl]
  have hss : v.sample.isSome := by rw [hs]; rfl
  have hv : { v with position := ((0 : Nat) : ℚ) } = v := by
    cases v
    simp_all
  have hrun := mix_run_steps af smp v hss hch hfr haf hp smp.length 0 (by omega)
  rw [hv] at hrun
  rw [Nat.zero_add] at hrun
  have hwrap : mix_step af smp { v with position := ((smp.length : Nat) : ℚ) }
      = ([], { v with position := (0 : ℚ) }) := by
    unfold mix_step
    rw [if_pos hss]
    have hfl : (⌊(((smp.length : Nat) : ℚ))⌋).toNat = smp.length := by simp
    rw [hfl, if_neg (by omega : ¬ smp.length < smp.length), if_pos hloop]
  have hback := mix_run_succ_back af smp smp.length v
  rw [hrun] at hback
  refine ⟨hwstep, ?_, ?_, ?_, ?_, ?_, ?_⟩
  · rw [hrun, List.range_eq_range']
  · rw [hrun]
  · rw [hrun, hwrap]
  · rw [hback, hwrap, List.append_nil, List.range_eq_range']
  · rw [hback, hwrap]
  · rw [hback, hwrap]
    exact hs

/-- Witness for C5: the concrete looping mono voice over `sampleMono`, plus a
voice whose truncated position 7 already passed the 3-frame end. -/
theorem looping_voice_wraps_to_zero_witness :
    mix_step 3 sampleMono { voicePlaying with looping := true, position := 7 }
      = ([], { voicePlaying with looping := true, position := 0 }) ∧
    (mix_run 3 sampleMono 3 { voicePlaying with looping := true }).1 = List.range 3 ∧
    (mix_run 3 sampleMono 4 { voicePlaying with looping := true }).2.position = 0 := by
  have h := looping_voice_wraps_to_zero 3 sampleMono { voicePlaying with looping := true }
    { voicePlaying with looping := true, position := 7 } 0
    (by decide) (by decide) (by decide) (by decide) (by decide) (by decide) (by decide)
    (by decide) (by decide) (by decide)
  exact ⟨h.1, h.2.1, h.2.2.2.2.2.1⟩

/-- Helper: a successful `findIdx` scan found an element satisfying `p`. -/
theorem exists_of_findIdx_lt {α} (p : α → Bool) (l : List α) (h : l.findIdx p < l.length) :
    ∃ x ∈ l, p x :=
  ⟨l[l.findIdx p], List.getElem_mem h, List.findIdx_getElem⟩

/-- Helper: a list with an element not satisfying `p` filters to a strictly
shorter list. -/
theorem filter_length_lt_of_exists_not {α} (p : α → Bool) :
    ∀ l : List α, (∃ x ∈ l, ¬ p x) → (l.filter p).length < l.length := by
  intro l
  induction l with
  | nil =>
    rintro ⟨x, hx, _⟩
    simp at hx
  | cons a t ih =>
    rintro ⟨x, hx, hpx⟩
    by_cases hpa : p a
    · have hxt : x ∈ t := by
        rcases List.mem_cons.mp hx with h | h
        · subst h; exact absurd hpa hpx
        · exact h
      have := ih ⟨x, hxt, hpx⟩
      simp only [List.filter_cons, hpa, if_pos, List.length_cons]
      omega
    · have hle := List.length_filter_le p t
      simp only [List.filter_cons, hpa, List.length_cons]
      simp only [Bool.false_eq_true, if_false]
      omega

/-- C2: `play_sample` on a valid sample performs a first-fit scan for a slot
with no sample and no held reference.  With `N-1` of the 32 slots busy for
`N ≤ 32` a free slot exists (the scan index is < 32), the call succeeds
returning the 1-based id of the FIRST free slot and writes exactly that slot
(clamped parameters, position 0, reference taken, sample published); with all
32 slots busy (`N = 33`) the scan fails and the call returns the recoverable
error "no free audio voice" leaving every slot — the whole state — untouched. -/
theorem play_sample_first_fit (st : AudioState) (sid N : Nat) (gain pitch pan : ℚ)
    (looping : Bool)
    (h32 : st.voices.length = AUDIO_VOICES)
    (hvalid : (st.samples.getD sid default).data.isSome)
    (h1 : 1 ≤ N) (h2 : N ≤ AUDIO_VOICES + 1)
    (hbusy : (st.voices.filter fun v => !(isFreeVoice v)).length = N - 1) :
    (N ≤ AUDIO_VOICES ↔ st.voices.findIdx isFreeVoice < AUDIO_VOICES) ∧
    f_nox_audio_play_sample sid gain pitch pan looping st
      = (if st.voices.findIdx isFreeVoice < AUDIO_VOICES then
          (.ok (st.voices.findIdx isFreeVoice + 1),
           { st with voices := st.voices.set (st.voices.findIdx isFreeVoice) (playedVoice sid gain pitch pan looping) })
        else (.error "no free audio voice", st)) := by
  have hcs : check_sample sid st = .ok (st.samples.getD sid default) := by
    unfold check_sample
    rw [if_pos hvalid]
  constructor
  · constructor
    · intro hN
      rw [← h32]
      apply List.findIdx_lt_length_of_exists
      have hlt : (st.voices.filter fun v => !(isFreeVoice v)).length < st.voices.length := by
        rw [hbusy, h32]
        unfold AUDIO_VOICES at *
        omega
      obtain ⟨x, hx, hpx⟩ := exists_not_of_filter_length_lt _ _ hlt
      exact ⟨x, hx, by simpa using hpx⟩
    · intro hk
      rw [← h32] at hk
      obtain ⟨x, hx, hpx⟩ := exists_of_findIdx_lt isFreeVoice st.voices hk
      have hlt := filter_length_lt_of_exists_not (fun v => !(isFreeVoice v)) st.voices
        ⟨x, hx, by simpa using hpx⟩
      rw [hbusy, h32] at hlt
      unfold AUDIO_VOICES at *
      omega
  · simp only [f_nox_audio_play_sample, hcs, h32]

/-- Witness for C2: playing sample 0 in the all-free state (N = 1): the scan
finds slot index 0 and the call returns voice id 1, writing slot 0. -/
theorem play_sample_first_fit_witness :
    f_nox_audio_play_sample 0 1 1 0 false stateFree
      = (if stateFree.voices.findIdx isFreeVoice < AUDIO_VOICES then
          (.ok (stateFree.voices.findIdx isFreeVoice + 1),
           { stateFree with voices := stateFree.voices.set (stateFree.voices.findIdx isFreeVoice) (playedVoice 0 1 1 0 false) })
        else (.error "no free audio voice", stateFree)) :=
  (play_sample_first_fit stateFree 0 1 1 1 0 false (by decide) (by decide) (by decide)
    (by decide) (by decide)).2

/-- Helper: the per-slot map of the C voice loops acts pointwise. -/
theorem mapVoices_getD (f : voice_t → voice_t × List Nat) (d : voice_t) :
    ∀ (l : List voice_t) (i : Nat), i < l.length →
      (mapVoices f l).1.getD i d = (f (l.getD i d)).1 := by
  intro l
  induction l with
  | nil =>
    intro i hi
    simp at hi
  | cons a t ih =>
    intro i hi
    cases i with
    | zero => simp [mapVoices]
    | succ m =>
      simp only [mapVoices, List.getD_cons_succ]
      exact ih m (by simpa using hi)

/-- C1 counterexample: destroying sample 0 of `stateA` (slot 1 references it)
leaves `is_sample_playing(sample)` FAILING with the destroyed-handle argument
check rather than returning false, refuting the claim's final conjunct. -/
theorem destroy_sample_counterexample :
    f_nox_audio_is_sample_playing 0 (f_nox_audio_destroy_sample 0 stateA).1 ≠ .ok false ∧
    f_nox_audio_is_sample_playing 0 (f_nox_audio_destroy_sample 0 stateA).1
      = .error "attempt to operate on destroyed sample" := by
  have he : f_nox_audio_is_sample_playing 0 (f_nox_audio_destroy_sample 0 stateA).1
      = .error "attempt to operate on destroyed sample" := by rfl
  refine ⟨?_, he⟩
  rw [he]
  intro h
  exact Except.noConfusion h

/-- C1 (amended): destroying a live sample stops every voice slot referencing
it — the slot's sample pointer becomes null, its held reference is released,
and `is_voice_playing` reports false for that slot — frees the PCM buffer and
marks the sample invalid; afterwards `is_sample_playing(sample)` fails with
the recoverable destroyed-handle argument-check error (rather than returning
false as originally claimed — indeed no voice references the sample any
more, but the call never reaches that scan). -/
theorem destroy_sample_stops_referencing_voices (st : AudioState) (sid i : Nat)
    (hvalid : (st.samples.getD sid default).data.isSome)
    (hsid : sid < st.samples.length)
    (h32 : st.voices.length = AUDIO_VOICES)
    (hi : i < AUDIO_VOICES)
    (href : (st.voices.getD i default).sample = some sid) :
    ((f_nox_audio_destroy_sample sid st).1.voices.getD i default).sample = none ∧
    ((f_nox_audio_destroy_sample sid st).1.voices.getD i default).sample_ref = none ∧
    f_nox_audio_is_voice_playing (i + 1) (f_nox_audio_destroy_sample sid st).1 = .ok false ∧
    ((f_nox_audio_destroy_sample sid st).1.samples.getD sid default).data = none ∧
    f_nox_audio_is_sample_valid sid (f_nox_audio_destroy_sample sid st).1 = false ∧
    f_nox_audio_is_sample_playing sid (f_nox_audio_destroy_sample sid st).1
      = .error "attempt to operate on destroyed sample" := by
  have hdes : f_nox_audio_destroy_sample sid st
      = ({ voices := (mapVoices (stop_sample_voice sid) st.voices).1,
           samples := st.samples.set sid { st.samples.getD sid default with data := none } },
         (mapVoices (stop_sample_voice sid) st.voices).2) := by
    unfold f_nox_audio_destroy_sample stop_sample
    rw [if_pos hvalid]
  have hvi : i < st.voices.length := by rw [h32]; exact hi
  have hgv : (f_nox_audio_destroy_sample sid st).1.voices.getD i default
      = (stop_sample_voice sid (st.voices.getD i default)).1 := by
    rw [hdes]
    exact mapVoices_getD _ _ st.voices i hvi
  have hstop : (stop_sample_voice sid (st.voices.getD i default)).1
      = { st.voices.getD i default with sample := none, sample_ref := none } := by
    unfold stop_sample_voice
    rw [if_pos href]
    rfl
  have hgs : (f_nox_audio_destroy_sample sid st).1.samples.getD sid default
      = { st.samples.getD sid default with data := none } := by
    rw [hdes]
    simp [List.getD_eq_getElem?_getD, List.getElem?_set_eq_of_lt _ hsid]
  have hnb : 1 ≤ i + 1 ∧ i + 1 ≤ AUDIO_VOICES := by
    unfold AUDIO_VOICES at *
    omega
  refine ⟨?_, ?_, ?_, ?_, ?_, ?_⟩
  · rw [hgv, hstop]
  · rw [hgv, hstop]
  · unfold f_nox_audio_is_voice_playing
    rw [if_pos hnb]
    simp only [Nat.add_sub_cancel, hgv, hstop]
    rfl
  · rw [hgs]
  · unfold f_nox_audio_is_sample_valid
    rw [hgs]
    rfl
  · unfold f_nox_audio_is_sample_playing check_sample
    rw [hgs]
    rfl

/-- Witness for the amended C1 at the concrete one-voice state. -/
theorem destroy_sample_stops_witness :
    f_nox_audio_is_voice_playing 1 (f_nox_audio_destroy_sample 0 stateA).1 = .ok false ∧
    f_nox_audio_is_sample_valid 0 (f_nox_audio_destroy_sample 0 stateA).1 = false :=
  ⟨(destroy_sample_stops_referencing_voices stateA 0 0 (by decide) (by decide) (by decide)
      (by decide) (by decide)).2.2.1,
   (destroy_sample_stops_referencing_voices stateA 0 0 (by decide) (by decide) (by decide)
      (by decide) (by decide)).2.2.2.2.1⟩

/-- C3 counterexample: with parent the CHILD image 1 of `vstateChild` (its
rectangle is (10,0,5,5) inside the 15x15 root), `create_child(parent, -8, 0,
5, 5)` succeeds and produces effective rectangle (2,0,3,5), which is NOT
contained in the parent's rectangle: the clipping code clamps against
`(0,0,parent.w,parent.h)` and ignores the parent's own origin. -/
theorem create_child_escapes_parent :
    (f_nox_video_create_child_image 1 (-8) 0 5 5 vstateChild).1 = .ok 2 ∧
    ((f_nox_video_create_child_image 1 (-8) 0 5 5 vstateChild).2.images.getD 2 default).rect
      = ⟨2, 0, 3, 5⟩ ∧
    ¬ rectContained
        ((f_nox_video_create_child_image 1 (-8) 0 5 5 vstateChild).2.images.getD 2 default).rect
        (vstateChild.images.getD 1 default).rect := by
  refine ⟨by decide, by decide, by decide⟩

/-- Helper: the clipped child rectangle of an origin-anchored positive parent
rectangle is contained in it. -/
theorem childRect_contained (p : SDL_Rect) (x y w h : Int) (hx : p.x = 0) (hy : p.y = 0)
    (hw : 0 < p.w) (hh : 0 < p.h) : rectContained (childRect p x y w h) p := by
  obtain ⟨px, py, pw, ph⟩ := p
  simp only at hx hy hw hh
  subst hx
  subst hy
  unfold childRect rectContained clampI maximumI minimumI
  dsimp only
  refine ⟨?_, ?_, ?_, ?_⟩ <;> split_ifs <;> omega

/-- C3 (amended): for a ROOT parent image (origin (0,0), positive extent — as
produced by `load_image`/`create_image`) and ANY requested child geometry
(x,y,w,h), including negative and oversized values, `create_child` succeeds
and the new child's effective rectangle is contained in the parent's
rectangle.  For a CHILD parent this containment can fail (see the
counterexample): the clamping ignores the parent's own origin. -/
theorem create_child_contained_in_root_parent (st : VideoState) (iid : Nat) (x y w h : Int)
    (hroot : (st.images.getD iid default).root = iid)
    (htex : (st.images.getD iid default).texture.isSome)
    (hx : (st.images.getD iid default).rect.x = 0)
    (hy : (st.images.getD iid default).rect.y = 0)
    (hw : 0 < (st.images.getD iid default).rect.w)
    (hh : 0 < (st.images.getD iid default).rect.h) :
    (f_nox_video_create_child_image iid x y w h st).1 = .ok st.images.length ∧
    (f_nox_video_create_child_image iid x y w h st).2.images
      = st.images ++ [{ root := iid, texture := none, rect := childRect (st.images.getD iid default).rect x y w h }] ∧
    rectContained (childRect (st.images.getD iid default).rect x y w h)
      (st.images.getD iid default).rect := by
  have hci : check_image iid st = .ok (st.images.getD iid default) := by
    unfold check_image
    rw [hroot, if_pos htex]
  refine ⟨?_, ?_, childRect_contained _ x y w h hx hy hw hh⟩
  · simp only [f_nox_video_create_child_image, hci]
  · simp only [f_nox_video_create_child_image, hci]

/-- Witness for the amended C3: an oversized, partly negative request on the
concrete 15x15 root image clips to (0,2,15,4), inside the root. -/
theorem create_child_contained_witness :
    (f_nox_video_create_child_image 0 (-3) 2 100 4 vstateRoot).1 = .ok 1 ∧
    rectContained (childRect (vstateRoot.images.getD 0 default).rect (-3) 2 100 4)
      (vstateRoot.images.getD 0 default).rect :=
  ⟨(create_child_contained_in_root_parent vstateRoot 0 (-3) 2 100 4 (by decide) (by decide)
      (by decide) (by decide) (by decide) (by decide)).1,
   (create_child_contained_in_root_parent vstateRoot 0 (-3) 2 100 4 (by decide) (by decide)
      (by decide) (by decide) (by decide) (by decide)).2.2⟩

/-- Helper: `create_child` propagates a failing image check. -/
theorem create_child_err (iid : Nat) (a b c d : Int) (st : VideoState) (e : String)
    (h : check_image iid st = .error e) :
    (f_nox_video_create_child_image iid a b c d st).1 = .error e := by
  unfold f_nox_video_create_child_image
  rw [h]

/-- C10: creating a child of a CHILD image succeeds and returns a fresh image
object, but its `root` pointer is set to the child parent itself (not to the
texture-owning root); since a child owns no texture, the grandchild
immediately reports `is_valid = false` and `get_size`, `draw` and
`create_child` on it all fail with the destroyed-image argument check, as if
it were destroyed. -/
theorem create_child_of_child_is_dead (st : VideoState) (cid : Nat) (x y w h x2 y2 w2 h2 : Int)
    (hcid : cid < st.images.length)
    (_hchild : (st.images.getD cid default).root ≠ cid)
    (hctex : (st.images.getD cid default).texture = none)
    (hroottex : (st.images.getD (st.images.getD cid default).root default).texture.isSome) :
    (f_nox_video_create_child_image cid x y w h st).1 = .ok st.images.length ∧
    ((f_nox_video_create_child_image cid x y w h st).2.images.getD st.images.length default).root = cid ∧
    ((f_nox_video_create_child_image cid x y w h st).2.images.getD st.images.length default).texture = none ∧
    f_nox_video_is_image_valid st.images.length (f_nox_video_create_child_image cid x y w h st).2 = false ∧
    f_nox_video_get_image_size st.images.length (f_nox_video_create_child_image cid x y w h st).2
      = .error "attempt to operate on destroyed image" ∧
    f_nox_video_draw_image st.images.length x2 y2 (f_nox_video_create_child_image cid x y w h st).2
      = .error "attempt to operate on destroyed image" ∧
    (f_nox_video_create_child_image st.images.length x2 y2 w2 h2
        (f_nox_video_create_child_image cid x y w h st).2).1
      = .error "attempt to operate on destroyed image" := by
  have hci : check_image cid st = .ok (st.images.getD cid default) := by
    unfold check_image
    rw [if_pos hroottex]
  have hst2 : (f_nox_video_create_child_image cid x y w h st).2.images
      = st.images ++ [{ root := cid, texture := none, rect := childRect (st.images.getD cid default).rect x y w h }] := by
    simp only [f_nox_video_create_child_image, hci]
  have h1 : (st.images ++ [({ root := cid, texture := none, rect := childRect (st.images.getD cid default).rect x y w h } : image_t)]).getD st.images.length default
      = { root := cid, texture := none, rect := childRect (st.images.getD cid default).rect x y w h } := by
    simp [List.getD_eq_getElem?_getD, List.getElem?_concat_length]
  have h2 : (st.images ++ [({ root := cid, texture := none, rect := childRect (st.images.getD cid default).rect x y w h } : image_t)]).getD cid default
      = st.images.getD cid default := by
    simp [List.getD_eq_getElem?_getD, List.getElem?_append_left hcid]
  have hchk : check_image st.images.length (f_nox_video_create_child_image cid x y w h st).2
      = .error "attempt to operate on destroyed image" := by
    unfold check_image
    rw [hst2, h1]
    show (if ((st.images ++ _).getD cid default).texture.isSome = true then _ else _) = _
    rw [h2, hctex]
    rfl
  refine ⟨?_, ?_, ?_, ?_, ?_, ?_, ?_⟩
  · simp only [f_nox_video_create_child_image, hci]
  · rw [hst2, h1]
  · rw [hst2, h1]
  · unfold f_nox_video_is_image_valid
    rw [hst2, h1]
    show ((st.images ++ _).getD cid default).texture.isSome = false
    rw [h2, hctex]
    rfl
  · unfold f_nox_video_get_image_size
    rw [hchk]
  · unfold f_nox_video_draw_image
    rw [hchk]
  · exact create_child_err _ _ _ _ _ _ _ hchk

/-- Witness for C10: the concrete child image 1 of `vstateChild`. -/
theorem create_child_of_child_is_dead_witness :
    f_nox_video_is_image_valid 2 (f_nox_video_create_child_image 1 0 0 2 2 vstateChild).2 = false ∧
    (f_nox_video_create_child_image 1 0 0 2 2 vstateChild).1 = .ok 2 :=
  ⟨(create_child_of_child_is_dead vstateChild 1 0 0 2 2 0 0 1 1 (by decide) (by decide)
      (by decide) (by decide)).2.2.2.1,
   (create_child_of_child_is_dead vstateChild 1 0 0 2 2 0 0 1 1 (by decide) (by decide)
      (by decide) (by decide)).1⟩

/-- C9: destroying the root image whose texture is the currently bound render
target first resets the target to the default surface — the binding's
keep-alive reference is released and both binding globals are cleared — and
only then frees the texture: the destroy decomposes as the freeing update
applied on top of `reset_render_target`, the intermediate reset state and the
final state both have a non-dangling render target, and destroy is
idempotent. -/
theorem destroy_bound_target_resets_first (st : VideoState) (iid t : Nat)
    (hiid : iid < st.images.length)
    (htex : (st.images.getD iid default).texture = some t)
    (hbound : st.render_target = some t) :
    f_nox_video_destroy_image iid st
      = { reset_render_target st with
          images := st.images.set iid { st.images.getD iid default with texture := none }
          freed := t :: st.freed } ∧
    (reset_render_target st).render_target = none ∧
    (reset_render_target st).render_target_ref = none ∧
    danglingTarget (reset_render_target st) = false ∧
    danglingTarget (f_nox_video_destroy_image iid st) = false ∧
    f_nox_video_destroy_image iid (f_nox_video_destroy_image iid st)
      = f_nox_video_destroy_image iid st := by
  have heq : f_nox_video_destroy_image iid st
      = { reset_render_target st with
          images := st.images.set iid { st.images.getD iid default with texture := none }
          freed := t :: st.freed } := by
    unfold f_nox_video_destroy_image
    rw [htex]
    dsimp only
    rw [if_pos hbound]
  have himg : (st.images.set iid { st.images.getD iid default with texture := none }).getD iid default
      = { st.images.getD iid default with texture := none } := by
    simp [List.getD_eq_getElem?_getD, List.getElem?_set_eq_of_lt _ hiid]
  refine ⟨heq, rfl, rfl, rfl, ?_, ?_⟩
  · rw [heq]
    rfl
  · rw [heq]
    conv =>
      lhs
      unfold f_nox_video_destroy_image
    dsimp only
    rw [himg]

/-- Witness for C9: destroying the bound root image of `vstateBound`. -/
theorem destroy_bound_target_witness :
    danglingTarget (f_nox_video_destroy_image 0 vstateBound) = false ∧
    f_nox_video_destroy_image 0 (f_nox_video_destroy_image 0 vstateBound)
      = f_nox_video_destroy_image 0 vstateBound :=
  ⟨(destroy_bound_target_resets_first vstateBound 0 0 (by decide) (by decide)
      (by decide)).2.2.2.2.1,
   (destroy_bound_target_resets_first vstateBound 0 0 (by decide) (by decide)
      (by decide)).2.2.2.2.2⟩

/-- C8: a destroyed sample handle (`data == NULL`) and a destroyed root image
handle (`texture == NULL`) are permanently invalid: every API operation on
them except the validity check and destroy fails with the recoverable
destroyed-handle argument-check error and leaves the state (and the released
references) untouched; `is_valid` reports false without failing; destroy on
the already-destroyed handle is a harmless no-op; and operations on OTHER
handles (here: destroying any other sample/image) never resurrect the
destroyed one. -/
theorem destroyed_handles_permanently_invalid (ast : AudioState) (vst : VideoState)
    (sid sid2 iid iid2 : Nat) (g p pn : ℚ) (lp : Bool) (x y w h : Int)
    (hdata : (ast.samples.getD sid default).data = none)
    (hdead : (vst.images.getD iid default).root = iid)
    (htex : (vst.images.getD iid default).texture = none)
    (hne : sid2 ≠ sid) (hine : iid2 ≠ iid) :
    f_nox_audio_is_sample_valid sid ast = false ∧
    f_nox_audio_is_sample_playing sid ast = .error "attempt to operate on destroyed sample" ∧
    f_nox_audio_get_sample_length sid ast = .error "attempt to operate on destroyed sample" ∧
    f_nox_audio_stop_sample sid ast = (.error "attempt to operate on destroyed sample", ast, []) ∧
    f_nox_audio_play_sample sid g p pn lp ast = (.error "attempt to operate on destroyed sample", ast) ∧
    f_nox_audio_destroy_sample sid ast = (ast, []) ∧
    ((f_nox_audio_destroy_sample sid2 ast).1.samples.getD sid default).data = none ∧
    f_nox_video_is_image_valid iid vst = false ∧
    f_nox_video_get_image_size iid vst = .error "attempt to operate on destroyed image" ∧
    f_nox_video_is_child_image iid vst = .error "attempt to operate on destroyed image" ∧
    f_nox_video_draw_image iid x y vst = .error "attempt to operate on destroyed image" ∧
    f_nox_video_create_child_image iid x y w h vst
      = (.error "attempt to operate on destroyed image", vst) ∧
    f_nox_video_set_render_target (some iid) vst
      = (.error "attempt to operate on destroyed image", vst) ∧
    f_nox_video_destroy_image iid vst = vst ∧
    ((f_nox_video_destroy_image iid2 vst).images.getD iid default).texture = none := by
  have hdata2 : (ast.samples[sid]?.getD default).data = none := by
    rw [← List.getD_eq_getElem?_getD]
    exact hdata
  have htex2 : (vst.images[iid]?.getD default).texture = none := by
    rw [← List.getD_eq_getElem?_getD]
    exact htex
  have hno : (ast.samples.getD sid default).data.isSome = false := by
    rw [hdata]
    rfl
  have hcs : check_sample sid ast = .error "attempt to operate on destroyed sample" := by
    simp only [check_sample, hno, Bool.false_eq_true, if_false]
  have hchk : check_image iid vst = .error "attempt to operate on destroyed image" := by
    unfold check_image
    rw [hdead, htex]
    rfl
  refine ⟨?_, ?_, ?_, ?_, ?_, ?_, ?_, ?_, ?_, ?_, ?_, ?_, ?_, ?_, ?_⟩
  · unfold f_nox_audio_is_sample_valid
    rw [hdata]
    rfl
  · unfold f_nox_audio_is_sample_playing
    rw [hcs]
  · unfold f_nox_audio_get_sample_length
    rw [hcs]
  · unfold f_nox_audio_stop_sample
    rw [hcs]
  · unfold f_nox_audio_play_sample
    rw [hcs]
  · simp only [f_nox_audio_destroy_sample, hno, Bool.false_eq_true, if_false]
  · by_cases h2 : (ast.samples.getD sid2 default).data.isSome
    · simp only [f_nox_audio_destroy_sample, h2, if_pos, stop_sample]
      simp only [List.getD_eq_getElem?_getD, List.getElem?_set_ne hne]
      exact hdata2
    · simp only [f_nox_audio_destroy_sample, h2, Bool.false_eq_true, if_false]
      exact hdata
  · unfold f_nox_video_is_image_valid
    rw [hdead, htex]
    rfl
  · unfold f_nox_video_get_image_size
    rw [hchk]
  · unfold f_nox_video_is_child_image
    rw [hchk]
  · unfold f_nox_video_draw_image
    rw [hchk]
  · unfold f_nox_video_create_child_image
    rw [hchk]
  · unfold f_nox_video_set_render_target
    dsimp only
    rw [hchk]
  · unfold f_nox_video_destroy_image
    rw [htex]
  · cases hcase : (vst.images.getD iid2 default).texture with
    | none =>
      unfold f_nox_video_destroy_image
      rw [hcase]
      exact htex
    | some t2 =>
      unfold f_nox_video_destroy_image
      rw [hcase]
      dsimp only
      simp only [List.getD_eq_getElem?_getD, List.getElem?_set_ne hine]
      exact htex2

/-- Witness for C8: the concrete destroyed sample and destroyed root image. -/
theorem destroyed_handles_witness :
    f_nox_audio_play_sample 0 1 1 0 false stateDead
      = (.error "attempt to operate on destroyed sample", stateDead) ∧
    f_nox_video_destroy_image 0 vstateDead = vstateDead :=
  ⟨(destroyed_handles_permanently_invalid stateDead vstateDead 0 1 0 1 1 1 0 false 0 0 2 2
      (by decide) (by decide) (by decide) (by decide) (by decide)).2.2.2.2.1,
   (destroyed_handles_permanently_invalid stateDead vstateDead 0 1 0 1 1 1 0 false 0 0 2 2
      (by decide) (by decide) (by decide) (by decide) (by decide)).2.2.2.2.2.2.2.2.2.2.2.2.2.1⟩
